import Mathlib

/-!
Verification of the ScoutIQ signal-derivation and heuristic-scoring engine.

The definitions below are a shallow embedding of the Python source:
  - backend/ai_analyzer.py      (PropertyAnalyzer: rule-based scoring, batch analysis)
  - backend/signal_processor.py (valuation bands, zone-code flood risk)
  - backend/utils/signals.py    (SignalComputer: per-record signals, batch recovery)
  - backend/ai_scoutgpt.py      (AIScoutGPT payload shaping)

Modelling conventions:
  - A property record is an association list from string keys to scalar
    values (`Record`), mirroring the open string-to-scalar dicts of the source.
  - Python numbers (int and float) are modelled as rationals; machine
    floating point is not modelled, so float rounding artifacts are out of
    scope.  Python string-to-number coercions are modelled for integer
    literals (decimal-fraction strings are not modelled).
  - Fallible code paths (expressions that can raise in Python) return
    `Option`; `none` models an exception escaping the modelled expression.
  - The wall clock (current year / current day) and the pandas date parser
    are modelled as explicit parameters (`SigEnv`), since tests of this repo
    must fix the reference date anyway.
-/

namespace ScoutIQ

/-- Scalar values that can appear in a property record (Python scalars:
numbers, strings, None, booleans). -/
inductive Value where
  | vNum (q : ℚ)
  | vStr (s : String)
  | vNull
  | vBool (b : Bool)
deriving DecidableEq

/-- An input record: an open mapping of string keys to scalar values,
modelled as an association list (first binding wins on lookup). -/
abbrev Record := List (String × Value)

/-- Lookup of a key in a record (Python `row[k]` / `k in row`). -/
def getVal : Record → String → Option Value
  | [], _ => none
  | (k1, v) :: rest, k => if k1 = k then some v else getVal rest k

/-- Python `record.get(k, d)`. -/
def getD (r : Record) (k : String) (d : Value) : Value :=
  (getVal r k).getD d

/-- Python `k in record`. -/
def hasKey (r : Record) (k : String) : Bool :=
  (getVal r k).isSome

/-- Python `record[k] = v`: replace the binding if the key is present,
otherwise append it. -/
def setKey (r : Record) (k : String) (v : Value) : Record :=
  if hasKey r k then r.map (fun kv => if kv.1 = k then (k, v) else kv)
  else r ++ [(k, v)]

/-- Python dict merge `\x7b**a, **b\x7d`: bindings of `b` win, remaining
bindings of `a` are kept. -/
def mergeRecords (a b : Record) : Record :=
  a.filter (fun kv => !(hasKey b kv.1)) ++ b

/-- Python truthiness of a scalar. -/
def truthy : Value → Bool
  | Value.vNull => false
  | Value.vNum q => decide (q ≠ 0)
  | Value.vStr s => decide (s ≠ "")
  | Value.vBool b => b

/-- Python `x or y`. -/
def pyOr (x y : Value) : Value :=
  if truthy x then x else y

/-- ASCII-uppercase a string (Python `str.upper`; the source only feeds it
ASCII field contents). -/
def strUpper (s : String) : String :=
  String.mk (s.data.map Char.toUpper)

/-- ASCII-lowercase a string (Python `str.lower`). -/
def strLower (s : String) : String :=
  String.mk (s.data.map Char.toLower)

/-- Python `pat in s` substring containment. -/
def strContains (s pat : String) : Bool :=
  decide (pat.data <:+: s.data)

/-- Python `str(v)` rendering of a scalar.  Integral numbers render as the
integer; non-integral rationals render as `num/den` (a modelling stand-in
for Python float repr, which no claim exercises). -/
def pyStr : Value → String
  | Value.vStr s => s
  | Value.vNull => "None"
  | Value.vBool b => if b then "True" else "False"
  | Value.vNum q => if q.den = 1 then toString q.num else toString q.num ++ "/" ++ toString q.den

/-- Truncation of a rational toward zero (Python `int(float)`). -/
def ratTrunc (q : ℚ) : ℤ :=
  if q < 0 then -(Rat.floor (-q)) else Rat.floor q

/-- Accumulate decimal digits; any non-digit character fails. -/
def parseNatAux : List Char → ℕ → Option ℕ
  | [], acc => some acc
  | c :: cs, acc => if c.isDigit then parseNatAux cs (acc * 10 + (c.toNat - 48)) else none

/-- Parse an optionally signed decimal integer from characters. -/
def parseIntChars : List Char → Option ℤ
  | [] => none
  | c :: cs =>
    if c = '-' then
      if cs.isEmpty then none else (parseNatAux cs 0).map (fun n => -(n : ℤ))
    else if c = '+' then
      if cs.isEmpty then none else (parseNatAux cs 0).map (fun n => (n : ℤ))
    else (parseNatAux (c :: cs) 0).map (fun n => (n : ℤ))

/-- Strip leading and trailing whitespace (Python `str.strip`, and the
stripping that `int(...)` / `float(...)` do on string input). -/
def trimChars (s : String) : String :=
  String.mk (((s.data.dropWhile Char.isWhitespace).reverse.dropWhile Char.isWhitespace).reverse)

/-- Parse an integer-literal string as Python `int(...)` does (surrounding
whitespace allowed, optional sign). -/
def strToInt (s : String) : Option ℤ :=
  parseIntChars (trimChars s).data

/-- Python `float(v)`: numbers and bools coerce; None raises; strings parse
(modelled for integer-literal strings; decimal-fraction strings are not
modelled). `none` models a raised exception. -/
def pyFloat : Value → Option ℚ
  | Value.vNum q => some q
  | Value.vBool b => some (if b then 1 else 0)
  | Value.vNull => none
  | Value.vStr s => (strToInt s).map (fun n => (n : ℚ))

/-- Python `int(v)`: numbers truncate, bools coerce, None raises, strings
parse as integers.  `none` models a raised exception. -/
def pyInt : Value → Option ℤ
  | Value.vNum q => some (ratTrunc q)
  | Value.vBool b => some (if b then 1 else 0)
  | Value.vNull => none
  | Value.vStr s => strToInt s

/-- Python `v.lower()`: only defined on strings; anything else raises
(AttributeError), modelled as `none`. -/
def lowerV : Value → Option String
  | Value.vStr s => some (strLower s)
  | _ => none

/-- A value is "a number" for Python `+` with an int accumulator (used by
`sum(...)`): numbers and bools work, None and strings raise. -/
def valueAsNum : Value → Option ℚ
  | Value.vNum q => some q
  | Value.vBool b => some (if b then 1 else 0)
  | _ => none

/-- Zero-padded three-digit rendering of `m < 1000` (one comma group). -/
def pad3 (m : ℕ) : String :=
  (if m < 10 then "00" else if m < 100 then "0" else "") ++ toString m

/-- Thousands-separated decimal rendering of a natural number
(Python format spec `,`). -/
def commaNat (n : ℕ) : String :=
  if n < 1000 then toString n
  else commaNat (n / 1000) ++ "," ++ pad3 (n % 1000)
termination_by n
decreasing_by exact Nat.div_lt_self (by omega) (by omega)

/-- Python `f"$\x7bq:,.0f\x7d"`: dollar sign, value rounded to an integer,
thousands separators.  (Rounding of exact halves is modelled as round half
up; the source rounds binary floats half to even, which no claim
exercises.) -/
def formatMoney (q : ℚ) : String :=
  "$" ++ (if round q < 0 then "-" else "") ++ commaNat (round q).natAbs

/-- Python `f"\x7bq:.0f\x7d"`: rounded to an integer, no separators. -/
def fmt0 (q : ℚ) : String :=
  toString (round q)

/- ----------------------------------------------------------------- -/
/- backend/ai_analyzer.py : PropertyAnalyzer._rule_based_analysis    -/
/- ----------------------------------------------------------------- -/

/-- Result dict of `PropertyAnalyzer._rule_based_analysis`.  The
`confidence` field holds the computed clamped confidence (the source
additionally rounds it to two decimals when building the output dict,
which is display formatting only). -/
structure Analysis where
  summary : String
  classification : String
  confidence : ℚ
  insights : List String
  risk_level : String
  investment_score : ℤ
  valuation : ℚ
  property_age : ℤ
deriving DecidableEq

/-- Extraction of `valuation` (ai_analyzer line 103):
`float(prop.get('primary_valuation', 0) or 0)`. -/
def extractValuation (r : Record) : Option ℚ :=
  pyFloat (pyOr (getD r "primary_valuation" (Value.vNum 0)) (Value.vNum 0))

/-- Extraction of `property_age` (ai_analyzer line 106):
`int(prop.get('property_age', 0) or 0)`. -/
def extractAge (r : Record) : Option ℤ :=
  pyInt (pyOr (getD r "property_age" (Value.vNum 0)) (Value.vNum 0))

/-- Extraction of `ownership` (ai_analyzer line 105). -/
def extractOwnership (r : Record) : Value :=
  getD r "ownership_type" (Value.vStr "Unknown")

/-- Extraction of `flood_risk` (ai_analyzer line 107). -/
def extractFlood (r : Record) : Value :=
  getD r "flood_risk" (Value.vStr "Unknown")

/-- Extraction of `valuation_band` (ai_analyzer lines 104 and 242). -/
def extractBand (r : Record) : Value :=
  getD r "valuation_band" (Value.vStr "Unknown")

/-- Extraction of `city` (ai_analyzer line 109). -/
def extractCity (r : Record) : Value :=
  getD r "property_address_city" (Value.vStr "Unknown City")

/-- Valuation contribution to the score (ai_analyzer lines 115-120). -/
def valAdj (valuation : ℚ) : ℤ :=
  if valuation < 250000 then 15
  else if 750000 < valuation then -10
  else 5

/-- Age contribution to the score (ai_analyzer lines 123-128). -/
def ageAdj (property_age : ℤ) : ℤ :=
  if 5 ≤ property_age ∧ property_age ≤ 20 then 20
  else if property_age < 5 then 10
  else if 40 < property_age then -15
  else 0

/-- Ownership contribution to the score (ai_analyzer lines 131-134). -/
def ownAdj (ownership : Value) : ℤ :=
  if ownership = Value.vStr "Individual" then 5
  else if ownership = Value.vStr "LLC" ∨ ownership = Value.vStr "Corporation" then 10
  else 0

/-- Flood-risk contribution to the score (ai_analyzer lines 137-140). -/
def floodAdj (flood_risk : Value) : ℤ :=
  if flood_risk = Value.vStr "High" ∨ flood_risk = Value.vStr "Medium" then -20
  else if flood_risk = Value.vStr "Low" then 10
  else 0

/-- The string carried by a string value (helper for branches where the
source has already established the value is one of a known set of
strings). -/
def floodStr : Value → String
  | Value.vStr s => s
  | _ => ""

/-- `PropertyAnalyzer._generate_summary` (ai_analyzer lines 175-203).
`ownLower` is `ownership.lower()`, computed fallibly by the caller. -/
def generateSummary (classification : String) (score : ℤ) (valuation : ℚ)
    (property_age : ℤ) (ownLower : String) (flood : Value) (city : Value) : String :=
  let val_str := if 0 < valuation then formatMoney valuation else "undisclosed"
  let age_str := if 0 < property_age then toString property_age ++ " years old" else "new construction"
  let sentiment :=
    if classification = "Buy" then "strong investment opportunity"
    else if classification = "Hold" then "moderate investment potential"
    else "requires careful evaluation"
  let action :=
    if classification = "Buy" then "This property presents attractive fundamentals with"
    else if classification = "Hold" then "This property offers"
    else "This property warrants caution due to"
  let s1 := action ++ " a valuation of " ++ val_str ++ " in " ++ pyStr city ++ ". "
  let s2 := s1 ++ "Built " ++ age_str ++ ", this " ++ ownLower ++ "-owned property is a " ++ sentiment ++ ". "
  let s3 := s2 ++
    (if flood = Value.vStr "High" ∨ flood = Value.vStr "Medium" then
      "Note: Property has " ++ strLower (floodStr flood) ++ " flood risk exposure. "
    else if flood = Value.vStr "Low" then "Low flood risk enhances investment appeal. "
    else "")
  s3 ++ "Investment score: " ++ toString score ++ "/100."

/-- `PropertyAnalyzer._generate_insights` (ai_analyzer lines 205-256). -/
def generateInsights (valuation : ℚ) (property_age : ℤ) (ownership flood band : Value)
    (classification : String) : List String :=
  ((if valuation < 250000 then ["Entry-level price point offers accessibility for first-time investors"]
    else if 750000 < valuation then ["Premium valuation requires higher capital commitment and risk tolerance"]
    else ["Mid-market valuation balances opportunity with manageable risk"])
  ++ (if property_age < 5 then ["Recent construction reduces immediate maintenance concerns"]
    else if 5 ≤ property_age ∧ property_age ≤ 20 then ["Prime property age combines modern amenities with established value"]
    else if 40 < property_age then ["Older property may require capital improvements or renovation"]
    else [])
  ++ (if ownership = Value.vStr "LLC" then ["LLC ownership suggests professional investment approach"]
    else if ownership = Value.vStr "Corporation" then ["Corporate ownership may indicate institutional investment interest"]
    else if ownership = Value.vStr "Individual" then ["Individual ownership typical for owner-occupied or personal investment"]
    else [])
  ++ (if flood = Value.vStr "High" then ["⚠️ High flood risk requires comprehensive insurance and mitigation planning"]
    else if flood = Value.vStr "Medium" then ["⚠️ Moderate flood exposure warrants insurance review"]
    else if flood = Value.vStr "Low" then ["✓ Low flood risk enhances long-term value stability"]
    else [])
  ++ (if band = Value.vStr "Low" then ["Below-market valuation may indicate value opportunity or underlying issues"]
    else if band = Value.vStr "High" then ["High-end market positioning targets premium buyer segment"]
    else [])
  ++ (if classification = "Buy" then ["✓ Strong fundamentals support acquisition consideration"]
    else if classification = "Hold" then ["Suitable for patient investors seeking moderate returns"]
    else ["Additional due diligence recommended before investment decision"])).take 6

/-- The pure part of `_rule_based_analysis` (ai_analyzer lines 111-173),
given the already-coerced valuation and age and the lowercased ownership
string. -/
def analysisCore (r : Record) (valuation : ℚ) (property_age : ℤ) (ownLower : String) : Analysis :=
  let ownership := extractOwnership r
  let flood := extractFlood r
  let band := extractBand r
  let city := extractCity r
  let score : ℤ := 50 + valAdj valuation + ageAdj property_age + ownAdj ownership + floodAdj flood
  let classification := if 70 ≤ score then "Buy" else if 50 ≤ score then "Hold" else "Watch"
  let conf0 : ℚ :=
    if 70 ≤ score then 0.75 + ((score : ℚ) - 70) * 0.01
    else if 50 ≤ score then 0.60 + ((score : ℚ) - 50) * 0.005
    else 0.50 + (score : ℚ) * 0.002
  let confidence := min conf0 0.95
  let risk_level := if 70 ≤ score then "Low" else if 50 ≤ score then "Medium" else "High"
  { summary := generateSummary classification score valuation property_age ownLower flood city
    classification := classification
    confidence := confidence
    insights := generateInsights valuation property_age ownership flood band classification
    risk_level := risk_level
    investment_score := score
    valuation := valuation
    property_age := property_age }

/-- `PropertyAnalyzer._rule_based_analysis` (ai_analyzer lines 99-173):
coerce the input fields (any raise yields `none`), then run the pure
scoring and narrative logic. -/
def ruleBasedAnalysis (r : Record) : Option Analysis :=
  match extractValuation r, extractAge r, lowerV (extractOwnership r) with
  | some v, some n, some ol => some (analysisCore r v n ol)
  | _, _, _ => none

/- ----------------------------------------------------------------- -/
/- backend/ai_analyzer.py : PropertyAnalyzer.analyze_batch           -/
/- ----------------------------------------------------------------- -/

/-- Result dict of `PropertyAnalyzer.analyze_batch`.  The empty-input
result carries no `breakdown` / `average_valuation` keys, modelled as
`none`. -/
structure BatchResult where
  summary : String
  classification : String
  confidence : ℚ
  insights : List String
  properties_analyzed : ℕ
  breakdown : Option (ℕ × ℕ × ℕ)
  average_valuation : Option ℚ
deriving DecidableEq

/-- Python `round(q, 2)` (ties modelled as round half up; the source
rounds binary floats half to even, which no claim exercises). -/
def round2 (q : ℚ) : ℚ :=
  (round (q * 100) : ℚ) / 100

/-- Minimum of a nonempty rational list (Python `min`). -/
def listMin : List ℚ → ℚ
  | [] => 0
  | x :: xs => xs.foldl min x

/-- Maximum of a nonempty rational list (Python `max`). -/
def listMax : List ℚ → ℚ
  | [] => 0
  | x :: xs => xs.foldl max x

/-- `PropertyAnalyzer._generate_market_summary` (ai_analyzer lines
258-275). -/
def marketSummary (total buy hold watch : ℕ) (avg : ℚ) : String :=
  let buy_pct : ℚ := ((buy : ℚ) / (total : ℚ)) * 100
  let sentiment :=
    if (total : ℚ) / 2 < (buy : ℚ) then "strong investment market"
    else if (total : ℚ) / 3 < (buy : ℚ) then "moderately favorable market"
    else "cautious market environment"
  "Analyzed " ++ toString total ++ " properties with average valuation of " ++
    formatMoney avg ++ ". " ++ "Market assessment: " ++ sentiment ++ " with " ++
    toString buy ++ " buy opportunities (" ++ fmt0 buy_pct ++ "%), " ++
    toString hold ++ " hold candidates, and " ++ toString watch ++
    " properties requiring further evaluation."

/-- `PropertyAnalyzer._generate_market_insights` (ai_analyzer lines
277-310).  Summing a list holding a present non-numeric value raises in
Python, hence `Option`. -/
def marketInsights (properties : List Record) (analyzed : List Analysis) :
    Option (List String) := do
  let valuations ← ((properties.map (fun p => getD p "primary_valuation" (Value.vNum 0))).filter
      (fun v => truthy v)).mapM valueAsNum
  let part1 :=
    if valuations.isEmpty then []
    else
      ["Valuation range: " ++ formatMoney (listMin valuations) ++ " - " ++
        formatMoney (listMax valuations) ++ " (avg: " ++
        formatMoney (valuations.sum / (valuations.length : ℚ)) ++ ")"]
  let ages ← ((properties.map (fun p => getD p "property_age" (Value.vNum 0))).filter
      (fun v => truthy v)).mapM valueAsNum
  let part2 :=
    if ages.isEmpty then []
    else ["Average property age: " ++ fmt0 (ages.sum / (ages.length : ℚ)) ++ " years"]
  let llc_count := (properties.map (fun p => getD p "ownership_type" Value.vNull)).countP
      (fun v => v = Value.vStr "LLC")
  let part3 :=
    if (properties.length : ℚ) / 2 < (llc_count : ℚ) then
      ["Majority LLC ownership indicates institutional investor presence"]
    else []
  let high_risk := analyzed.countP (fun a => a.risk_level = "High")
  let part4 :=
    if (analyzed.length : ℚ) / 3 < (high_risk : ℚ) then
      ["⚠️ Elevated risk profile across portfolio requires careful evaluation"]
    else []
  let avg_score := (analyzed.map (fun a => (a.investment_score : ℚ))).sum / (analyzed.length : ℚ)
  pure (part1 ++ part2 ++ part3 ++ part4 ++
    ["Average investment score: " ++ fmt0 avg_score ++ "/100"])

/-- `PropertyAnalyzer.analyze_batch` (ai_analyzer lines 59-97), with
`use_llm = False` so each property goes through the rule-based analysis.
Any exception from a per-property analysis or from summing a non-numeric
valuation propagates, modelled as `none`. -/
def analyzeBatch (properties : List Record) : Option BatchResult :=
  if properties.isEmpty then
    some { summary := "No properties provided for analysis."
           classification := "Unknown"
           confidence := 0
           insights := []
           properties_analyzed := 0
           breakdown := none
           average_valuation := none }
  else do
    let analyzed ← properties.mapM ruleBasedAnalysis
    let buy_count := analyzed.countP (fun a => a.classification = "Buy")
    let hold_count := analyzed.countP (fun a => a.classification = "Hold")
    let watch_count := analyzed.countP (fun a => a.classification = "Watch")
    let vals ← properties.mapM (fun p => valueAsNum (getD p "primary_valuation" (Value.vNum 0)))
    let avg_valuation := vals.sum / (properties.length : ℚ)
    let ins ← marketInsights properties analyzed
    pure { summary := marketSummary properties.length buy_count hold_count watch_count avg_valuation
           classification := "Mixed Portfolio"
           confidence := (analyzed.map (fun a => a.confidence)).sum / (analyzed.length : ℚ)
           insights := ins
           properties_analyzed := properties.length
           breakdown := some (buy_count, hold_count, watch_count)
           average_valuation := some (round2 avg_valuation) }

/- ----------------------------------------------------------------- -/
/- backend/signal_processor.py : _valuation_band, _flood_risk        -/
/- ----------------------------------------------------------------- -/

/-- `signal_processor._valuation_band` (lines 68-75). -/
def valuation_band (val : ℚ) : String :=
  if val ≤ 0 then "Unknown"
  else if val < 250000 then "Low"
  else if val ≤ 750000 then "Mid"
  else "High"

/-- Numeric height of a band label, for stating monotonicity of the band
in the valuation. -/
def bandRank (band : String) : ℕ :=
  if band = "Mid" then 1 else if band = "High" then 2 else 0

/-- The flood-zone column aliases scanned by `_flood_risk`
(signal_processor lines 151-157). -/
def floodCandidates : List String :=
  ["flood_zone", "FloodZone", "fema_zone", "FEMAZone", "fema_floodplain"]

/-- The first present, non-NA flood-zone field of a row
(signal_processor lines 158-162). -/
def lookupZone (r : Record) : Option Value :=
  floodCandidates.findSome? (fun c =>
    match getVal r c with
    | some v => if v = Value.vNull then none else some v
    | none => none)

/-- `signal_processor._flood_risk` (lines 146-173): uppercase the first
present zone code and map it by substring containment, first match in
the order Low, Medium, High. -/
def flood_risk (r : Record) : String :=
  match lookupZone r with
  | none => "Unknown"
  | some v =>
    let z := strUpper (pyStr v)
    if z = "" then "Unknown"
    else if strContains z "X" || strContains z "MINIMAL" then "Low"
    else if strContains z "AE" || strContains z "A" || strContains z "0.2%" || strContains z "500" then "Medium"
    else if strContains z "FLOODWAY" || strContains z "VE" || strContains z "HIGH" then "High"
    else "Unknown"

/- ----------------------------------------------------------------- -/
/- backend/utils/signals.py : SignalComputer                         -/
/- ----------------------------------------------------------------- -/

/-- Wall-clock and date-parsing environment for the signal computer:
the current year (`datetime.now().year`), the current day number
(`datetime.now()` as a day count), and the pandas date parser
(`pd.to_datetime`, `none` = unparseable). -/
structure SigEnv where
  currentYear : ℤ
  nowDay : ℤ
  parseDate : Value → Option ℤ

/-- `SignalComputer.safe_float` (signals lines 17-24): None, `''` and
`'None'` map to 0; failed coercions map to 0; never raises. -/
def safeFloat : Value → ℚ
  | Value.vNull => 0
  | Value.vStr s =>
    if s = "" ∨ s = "None" then 0
    else ((strToInt s).map (fun n => (n : ℚ))).getD 0
  | Value.vNum q => q
  | Value.vBool b => if b then 1 else 0

/-- Python `int(str(v).strip())` (signals lines 151 and 194): renders the
value and parses it as an integer; `none` models the raised
ValueError/TypeError. -/
def intFromValue (v : Value) : Option ℤ :=
  strToInt (pyStr v)

/-- `SignalComputer._compute_valuation_signals` (signals lines 47-91). -/
def valuationSignals (r : Record) : Record :=
  let estimated := safeFloat (getD r "estimated_value" Value.vNull)
  let tax := safeFloat (getD r "tax_market_value_total" Value.vNull)
  let assessed := safeFloat (getD r "tax_assessed_value_total" Value.vNull)
  let primary := if estimated ≠ 0 then estimated
    else if tax ≠ 0 then tax
    else if assessed ≠ 0 then assessed
    else 0
  let band := if 0 < primary then
      (if primary < 200000 then "Low"
       else if primary < 500000 then "Medium"
       else if primary < 1000000 then "High"
       else "Premium")
    else "Unknown"
  let lot_sf := safeFloat (getD r "area_lot_sf" (Value.vNum 0))
  let value_per_sf := if lot_sf ≠ 0 ∧ 0 < lot_sf then primary / lot_sf else 0
  let assess_quot := if assessed ≠ 0 ∧ tax ≠ 0 ∧ 0 < tax then assessed / tax else 0
  [("primary_valuation", Value.vNum primary),
   ("valuation_band", Value.vStr band),
   ("value_per_sf", Value.vNum value_per_sf),
   ("assessment_ratio", Value.vNum assess_quot)]

/-- The corporate-owner keywords of `_compute_ownership_signals`
(signals lines 103-105). -/
def ownKeywords : List String := ["LLC", "CORP", "INC", "LP", "LLP"]

/-- `any(keyword in name.upper() for keyword in [...])`. -/
def hasOwnKeyword (s : String) : Bool :=
  ownKeywords.any (fun k => strContains (strUpper s) k)

/-- `SignalComputer._compute_ownership_signals` (signals lines 93-122).
Calling `.upper()` on a present non-string owner name raises, modelled as
`none`; the secondary owner is only touched when the primary has no
keyword (Python `elif`). -/
def ownershipSignals (r : Record) : Option Record :=
  let owner1 := getD r "party_owner1_name_full" (Value.vStr "")
  let owner2 := getD r "party_owner2_name_full" (Value.vStr "")
  let mail := getD r "contact_owner_mail_address_full" (Value.vStr "")
  let site := getD r "property_address_full" (Value.vStr "")
  (match owner1 with
   | Value.vStr s1 =>
     if hasOwnKeyword s1 then some "LLC"
     else match owner2 with
       | Value.vStr s2 => some (if hasOwnKeyword s2 then "LLC" else "Individual")
       | _ => none
   | _ => none).map (fun otype =>
    [("ownership_type", Value.vStr otype),
     ("absentee_owner", Value.vBool (truthy mail && truthy site && decide (mail ≠ site))),
     ("multiple_owners", Value.vBool (truthy owner2)),
     ("owner_occupied", Value.vBool (decide (getD r "status_owner_occupied_flag" Value.vNull = Value.vStr "1")))])

/-- `SignalComputer._compute_loan_signals` (signals lines 124-135). -/
def loanSignals : Record :=
  [("loan_maturity", Value.vNull),
   ("loan_amount", Value.vNull),
   ("loan_to_value", Value.vNull),
   ("interest_rate", Value.vNull)]

/-- `SignalComputer._compute_flood_risk` (signals lines 180-232): the
geometric heuristic.  The Euclidean distance comparisons
`sqrt d < 0.05` and `sqrt d < 0.1` are stated on squares
(`d < 0.0025`, `d < 0.01`), which is equivalent since sqrt is monotone
on nonnegatives. -/
def computeFloodRisk (env : SigEnv) (r : Record) : String :=
  let lat := safeFloat (getD r "property_latitude" (Value.vNum 0))
  let lng := safeFloat (getD r "property_longitude" (Value.vNum 0))
  let valuation := safeFloat (getD r "tax_market_value_total" (Value.vNum 0))
  let yb := getD r "year_built" Value.vNull
  let age : ℤ :=
    if truthy yb then
      match intFromValue yb with
      | some yv => if 1800 < yv ∧ yv ≤ env.currentYear then env.currentYear - yv else 0
      | none => 0
    else 0
  if 0 < lat ∧ lng < 0 then
    let distSq := (lat - 30.2672) ^ 2 + (lng - (-97.7431)) ^ 2
    if distSq < 0.0025 then
      (if 500000 < valuation then "High"
       else if 200000 < valuation then "Medium"
       else "Low")
    else if distSq < 0.01 then
      (if 30 < age then "Medium" else "Low")
    else "Low"
  else if 40 < age then "Medium"
  else if 1000000 < valuation then "High"
  else "Low"

/-- `SignalComputer._compute_risk_signals` (signals lines 137-178).
When `property_age` ends up `None` (missing, implausible, or unparseable
year built), line 176 evaluates `None > 30` and raises a TypeError,
modelled as `none`. -/
def riskSignals (env : SigEnv) (r : Record) : Option Record :=
  let flood := computeFloodRisk env r
  let yb := getD r "year_built" Value.vNull
  let agePair : Value × Value :=
    if truthy yb then
      match intFromValue yb with
      | some yv =>
        if 1800 < yv ∧ yv ≤ env.currentYear then
          let age := env.currentYear - yv
          (Value.vNum (age : ℚ),
           Value.vStr (if age < 5 then "New"
             else if age < 20 then "Recent"
             else if age < 50 then "Mature"
             else "Old"))
        else (Value.vNull, Value.vStr "Unknown")
      | none => (Value.vNull, Value.vStr "Unknown")
    else (Value.vNull, Value.vStr "Unknown")
  match agePair.1 with
  | Value.vNum age =>
    some [("tax_delinquent", Value.vBool false),
          ("flood_risk", Value.vStr flood),
          ("property_age", Value.vNum age),
          ("age_category", agePair.2),
          ("needs_renovation", Value.vBool (decide (30 < age)))]
  | _ => none

/-- `SignalComputer._compute_market_signals` (signals lines 234-266); the
bare `except` makes it total. -/
def marketSignals (env : SigEnv) (r : Record) : Record :=
  let lsd := getD r "assessor_last_sale_date" Value.vNull
  let amount := safeFloat (getD r "assessor_last_sale_amount" (Value.vNum 0))
  let rest :=
    if truthy lsd then
      match env.parseDate lsd with
      | some d =>
        let days := env.nowDay - d
        [("days_since_sale", Value.vNum (days : ℚ)),
         ("recent_sale", Value.vBool (decide (days < 365)))]
      | none =>
        [("days_since_sale", Value.vNull), ("recent_sale", Value.vBool false)]
    else [("days_since_sale", Value.vNull), ("recent_sale", Value.vBool false)]
  [("last_sale_date", lsd), ("last_sale_amount", Value.vNum amount)] ++ rest ++
    [("price_appreciation", Value.vNull)]

/-- `SignalComputer.compute_property_signals` (signals lines 26-45):
concatenation of the five signal groups; any raise propagates. -/
def computePropertySignals (env : SigEnv) (r : Record) : Option Record := do
  let v := valuationSignals r
  let o ← ownershipSignals r
  let l := loanSignals
  let k ← riskSignals env r
  let m := marketSignals env r
  pure (v ++ o ++ l ++ k ++ m)

/-- `SignalComputer._rule_based_classification` (signals lines 316-333).
The unused `val` coercion is kept because it can raise. -/
def ruleBasedClassification (p : Record) : Option String := do
  let _val ← pyFloat (pyOr (getD p "primary_valuation" Value.vNull) (Value.vNum 0))
  let age ← pyInt (pyOr (getD p "property_age" Value.vNull) (Value.vNum 0))
  let absentee := truthy (getD p "absentee_owner" Value.vNull)
  let band ← lowerV (pyOr (getD p "valuation_band" Value.vNull) (Value.vStr ""))
  let recent := truthy (getD p "recent_sale" Value.vNull)
  pure (
    if (band = "high" ∨ band = "premium") ∧ absentee = false ∧ age < 25 then "Buy"
    else if recent = true ∧ (band = "medium" ∨ band = "high" ∨ band = "premium") then "Hold"
    else if absentee = true ∧ (band = "low" ∨ band = "medium") then "Watch"
    else "Hold")

/-- The body of the `try` block of `compute_batch_signals` for one record
(signals lines 273-279): derive the signals, merge them over the input
record, and attach the classification hint.  `none` models any exception
raised inside the block. -/
def tryComputeCombined (env : SigEnv) (p : Record) : Option Record := do
  let signals ← computePropertySignals env p
  let combined := mergeRecords p signals
  let hint ← ruleBasedClassification combined
  pure (setKey combined "classification_hint" (Value.vStr hint))

/-- The minimal safe-default signals of the `except` branch
(signals lines 283-290). -/
def defaultSignals : Record :=
  [("primary_valuation", Value.vNum 0),
   ("valuation_band", Value.vStr "Unknown"),
   ("ownership_type", Value.vStr "Unknown"),
   ("absentee_owner", Value.vBool false),
   ("property_age", Value.vNull),
   ("age_category", Value.vStr "Unknown")]

/-- The full `except` branch output for one record (signals lines
283-292): the input merged with the default signals plus a `Watch`
classification hint. -/
def safeDefaultRecord (p : Record) : Record :=
  setKey (mergeRecords p defaultSignals) "classification_hint" (Value.vStr "Watch")

/-- `SignalComputer.compute_batch_signals` (signals lines 268-294): each
record is processed in order; a record whose derivation raises is
replaced by its safe-default record. -/
def computeBatchSignals (env : SigEnv) (properties : List Record) : List Record :=
  properties.map (fun p => (tryComputeCombined env p).getD (safeDefaultRecord p))

/- ----------------------------------------------------------------- -/
/- backend/ai_scoutgpt.py : AIScoutGPT payload shaping               -/
/- ----------------------------------------------------------------- -/

/-- The allow-set of `AIScoutGPT._filter_signal` used when no input
schema is configured (ai_scoutgpt lines 70-74). -/
def allowList : List String :=
  ["property_id", "attom_id", "address", "property_address_full",
   "primary_valuation", "valuation_band", "ownership_type",
   "loan_maturity", "flood_risk", "tax_delinquent", "property_latitude",
   "property_longitude"]

/-- `AIScoutGPT._filter_signal` (ai_scoutgpt lines 65-86).  The input
schema is modelled by its key list (only the keys are consulted);
an empty schema selects the allow-set path. -/
def filterSignal (inputSchema : List String) (signal : Record) : Record :=
  if inputSchema.isEmpty then
    signal.filter (fun kv => decide (kv.1 ∈ allowList))
  else
    inputSchema.foldl (fun shaped field =>
      if hasKey signal field then shaped ++ [(field, getD signal field Value.vNull)]
      else if field = "property_id" ∧ hasKey signal "attom_id" then
        shaped ++ [("property_id", getD signal "attom_id" Value.vNull)]
      else if field = "address" ∧ hasKey signal "property_address_full" then
        shaped ++ [("address", getD signal "property_address_full" Value.vNull)]
      else shaped) []

/-- The JSON payload POSTed by `call_scoutgpt`. -/
structure Payload where
  context : Record
  signals : List Record
deriving DecidableEq

/-- Payload construction of `AIScoutGPT.call_scoutgpt` (ai_scoutgpt lines
126-130): shape every signal, default a missing context or batch. -/
def scoutPayload (inputSchema : List String) (context : Option Record)
    (signal_batch : Option (List Record)) : Payload :=
  { context := context.getD []
    signals := (signal_batch.getD []).map (filterSignal inputSchema) }

/- ----------------------------------------------------------------- -/
/- Concrete demonstration inputs used by the witnesses               -/
/- ----------------------------------------------------------------- -/

/-- A record hitting every positive adjustment: valuation below 250k,
prime age, LLC ownership, low flood risk. -/
def demoRec : Record :=
  [("primary_valuation", Value.vNum 100000),
   ("property_age", Value.vNum 10),
   ("ownership_type", Value.vStr "LLC"),
   ("flood_risk", Value.vStr "Low")]

/-- The analysis of `demoRec`. -/
def demoAnalysis : Analysis :=
  analysisCore demoRec 100000 10 "llc"

/-- A record with every present field pushing the score down: high
valuation, old age, high flood risk, no scored ownership. -/
def demoRecLow : Record :=
  [("primary_valuation", Value.vNum 900000),
   ("property_age", Value.vNum 45),
   ("ownership_type", Value.vStr "Bank"),
   ("flood_risk", Value.vStr "High")]

/-- The analysis of `demoRecLow`. -/
def demoAnalysisLow : Analysis :=
  analysisCore demoRecLow 900000 45 "bank"

/-- A record with no `property_age` key at all. -/
def demoRecNoAge : Record :=
  [("primary_valuation", Value.vNum 300000),
   ("ownership_type", Value.vStr "Individual"),
   ("flood_risk", Value.vStr "Low")]

/-- The analysis of `demoRecNoAge`. -/
def demoAnalysisNoAge : Analysis :=
  analysisCore demoRecNoAge 300000 0 "individual"

/-- A fixed signal-computation environment for the witnesses. -/
def demoEnv : SigEnv :=
  { currentYear := 2026, nowDay := 0, parseDate := fun _ => none }

/- ----------------------------------------------------------------- -/
/- Helper lemmas                                                     -/
/- ----------------------------------------------------------------- -/

theorem ruleBasedAnalysis_eq_some {r : Record} {a : Analysis}
    (h : ruleBasedAnalysis r = some a) :
    ∃ (v : ℚ) (n : ℤ) (ol : String),
      extractValuation r = some v ∧ extractAge r = some n ∧
      lowerV (extractOwnership r) = some ol ∧ a = analysisCore r v n ol := by
  unfold ruleBasedAnalysis at h
  cases hv : extractValuation r <;> rw [hv] at h <;>
    cases hn : extractAge r <;> rw [hn] at h <;>
      cases hol : lowerV (extractOwnership r) <;> rw [hol] at h <;>
        simp only [Option.some.injEq, reduceCtorEq] at h
  exact ⟨_, _, _, rfl, rfl, rfl, h.symm⟩

theorem analysisCore_score (r : Record) (v : ℚ) (n : ℤ) (ol : String) :
    (analysisCore r v n ol).investment_score =
      50 + valAdj v + ageAdj n + ownAdj (extractOwnership r) + floodAdj (extractFlood r) := rfl

theorem analysisCore_classification (r : Record) (v : ℚ) (n : ℤ) (ol : String) :
    (analysisCore r v n ol).classification =
      (if 70 ≤ (analysisCore r v n ol).investment_score then "Buy"
       else if 50 ≤ (analysisCore r v n ol).investment_score then "Hold"
       else "Watch") := rfl

theorem analysisCore_confidence (r : Record) (v : ℚ) (n : ℤ) (ol : String) :
    (analysisCore r v n ol).confidence =
      min (if 70 ≤ (analysisCore r v n ol).investment_score then
            0.75 + (((analysisCore r v n ol).investment_score : ℚ) - 70) * 0.01
          else if 50 ≤ (analysisCore r v n ol).investment_score then
            0.60 + (((analysisCore r v n ol).investment_score : ℚ) - 50) * 0.005
          else 0.50 + ((analysisCore r v n ol).investment_score : ℚ) * 0.002) 0.95 := rfl

theorem analysisCore_risk (r : Record) (v : ℚ) (n : ℤ) (ol : String) :
    (analysisCore r v n ol).risk_level =
      (if 70 ≤ (analysisCore r v n ol).investment_score then "Low"
       else if 50 ≤ (analysisCore r v n ol).investment_score then "Medium"
       else "High") := rfl

theorem valAdj_bounds (v : ℚ) : -10 ≤ valAdj v ∧ valAdj v ≤ 15 := by
  unfold valAdj; split_ifs <;> omega

theorem ageAdj_bounds (n : ℤ) : -15 ≤ ageAdj n ∧ ageAdj n ≤ 20 := by
  unfold ageAdj; split_ifs <;> omega

theorem ownAdj_bounds (o : Value) : 0 ≤ ownAdj o ∧ ownAdj o ≤ 10 := by
  unfold ownAdj; split_ifs <;> omega

theorem floodAdj_bounds (f : Value) : -20 ≤ floodAdj f ∧ floodAdj f ≤ 10 := by
  unfold floodAdj; split_ifs <;> omega

theorem analysisCore_score_bounds (r : Record) (v : ℚ) (n : ℤ) (ol : String) :
    5 ≤ (analysisCore r v n ol).investment_score ∧
    (analysisCore r v n ol).investment_score ≤ 105 := by
  rw [analysisCore_score]
  obtain ⟨h1, h2⟩ := valAdj_bounds v
  obtain ⟨h3, h4⟩ := ageAdj_bounds n
  obtain ⟨h5, h6⟩ := ownAdj_bounds (extractOwnership r)
  obtain ⟨h7, h8⟩ := floodAdj_bounds (extractFlood r)
  omega

theorem score_lower_bound {r : Record} {a : Analysis}
    (h : ruleBasedAnalysis r = some a) : 5 ≤ a.investment_score := by
  obtain ⟨v, n, ol, _, _, _, rfl⟩ := ruleBasedAnalysis_eq_some h
  exact (analysisCore_score_bounds r v n ol).1

/- ----------------------------------------------------------------- -/
/- Claim theorems                                                    -/
/- ----------------------------------------------------------------- -/

/-- Claim C1: for every input record, the rule-based scorer computes the
investment score as 50 plus exactly these adjustments: valuation below
250,000 adds 15, valuation above 750,000 subtracts 10, any other
valuation adds 5; age between 5 and 20 inclusive adds 20, age below 5
adds 10, age above 40 subtracts 15, ages 21-40 add nothing; ownership
Individual adds 5, ownership LLC or Corporation adds 10; flood risk High
or Medium subtracts 20, Low adds 10, Unknown adds nothing. -/
theorem C1_rule_based_score (r : Record) (a : Analysis) (v : ℚ) (n : ℤ)
    (hv : extractValuation r = some v) (hn : extractAge r = some n)
    (h : ruleBasedAnalysis r = some a) :
    a.investment_score = 50
      + (if v < 250000 then 15 else if 750000 < v then -10 else 5)
      + (if 5 ≤ n ∧ n ≤ 20 then 20 else if n < 5 then 10 else if 40 < n then -15 else 0)
      + (if extractOwnership r = Value.vStr "Individual" then 5
         else if extractOwnership r = Value.vStr "LLC" ∨ extractOwnership r = Value.vStr "Corporation" then 10
         else 0)
      + (if extractFlood r = Value.vStr "High" ∨ extractFlood r = Value.vStr "Medium" then -20
         else if extractFlood r = Value.vStr "Low" then 10
         else 0) := by
  obtain ⟨v2, n2, ol, hv2, hn2, _, rfl⟩ := ruleBasedAnalysis_eq_some h
  rw [hv] at hv2
  rw [hn] at hn2
  obtain rfl : v = v2 := (Option.some.injEq _ _).mp hv2
  obtain rfl : n = n2 := (Option.some.injEq _ _).mp hn2
  rw [analysisCore_score]
  rfl

/-- Witness for C1 at a concrete record (valuation 100000, age 10,
LLC ownership, Low flood risk). -/
theorem C1_witness :
    demoAnalysis.investment_score = 50
      + (if (100000 : ℚ) < 250000 then 15 else if 750000 < (100000 : ℚ) then -10 else 5)
      + (if 5 ≤ (10 : ℤ) ∧ (10 : ℤ) ≤ 20 then 20 else if (10 : ℤ) < 5 then 10 else if 40 < (10 : ℤ) then -15 else 0)
      + (if extractOwnership demoRec = Value.vStr "Individual" then 5
         else if extractOwnership demoRec = Value.vStr "LLC" ∨ extractOwnership demoRec = Value.vStr "Corporation" then 10
         else 0)
      + (if extractFlood demoRec = Value.vStr "High" ∨ extractFlood demoRec = Value.vStr "Medium" then -20
         else if extractFlood demoRec = Value.vStr "Low" then 10
         else 0) :=
  C1_rule_based_score demoRec demoAnalysis 100000 10 rfl rfl rfl

/-- Claim C2: for every reachable score s, score at least 70 classifies
Buy with confidence `0.75 + (s - 70) * 0.01`, scores 50 to 69 classify
Hold with confidence `0.60 + (s - 50) * 0.005`, scores below 50 classify
Watch with confidence `0.50 + s * 0.002`; confidence is clamped down to
at most 0.95 and always lies in [0, 0.95]; and the risk level is Low,
Medium, High at the same thresholds. -/
theorem C2_classification_confidence (r : Record) (a : Analysis)
    (h : ruleBasedAnalysis r = some a) :
    (70 ≤ a.investment_score →
      a.classification = "Buy" ∧
      a.confidence = min (0.75 + ((a.investment_score : ℚ) - 70) * 0.01) 0.95 ∧
      a.risk_level = "Low") ∧
    (50 ≤ a.investment_score ∧ a.investment_score ≤ 69 →
      a.classification = "Hold" ∧
      a.confidence = min (0.60 + ((a.investment_score : ℚ) - 50) * 0.005) 0.95 ∧
      a.risk_level = "Medium") ∧
    (a.investment_score < 50 →
      a.classification = "Watch" ∧
      a.confidence = min (0.50 + ((a.investment_score : ℚ)) * 0.002) 0.95 ∧
      a.risk_level = "High") ∧
    0 ≤ a.confidence ∧ a.confidence ≤ 0.95 := by
  have h5 := score_lower_bound h
  obtain ⟨v, n, ol, _, _, _, rfl⟩ := ruleBasedAnalysis_eq_some h
  rw [analysisCore_classification, analysisCore_confidence, analysisCore_risk]
  set s := (analysisCore r v n ol).investment_score with hs
  refine ⟨?_, ?_, ?_, ?_, min_le_right _ _⟩
  · intro h70
    rw [if_pos h70, if_pos h70, if_pos h70]
    exact ⟨rfl, rfl, rfl⟩
  · rintro ⟨h50, h69⟩
    have h70 : ¬ 70 ≤ s := by omega
    rw [if_neg h70, if_pos h50, if_neg h70, if_pos h50, if_neg h70, if_pos h50]
    exact ⟨rfl, rfl, rfl⟩
  · intro hlt
    have h70 : ¬ 70 ≤ s := by omega
    have h50 : ¬ 50 ≤ s := by omega
    rw [if_neg h70, if_neg h50, if_neg h70, if_neg h50, if_neg h70, if_neg h50]
    exact ⟨rfl, rfl, rfl⟩
  · refine le_min ?_ (by norm_num)
    split_ifs with h70 h50
    · have : (70 : ℚ) ≤ (s : ℚ) := by exact_mod_cast h70
      nlinarith
    · have : (50 : ℚ) ≤ (s : ℚ) := by exact_mod_cast h50
      nlinarith
    · have : (5 : ℚ) ≤ (s : ℚ) := by exact_mod_cast h5
      nlinarith

/-- Witness for C2 at a concrete record whose analysis scores 105. -/
theorem C2_witness :
    (70 ≤ demoAnalysis.investment_score →
      demoAnalysis.classification = "Buy" ∧
      demoAnalysis.confidence = min (0.75 + ((demoAnalysis.investment_score : ℚ) - 70) * 0.01) 0.95 ∧
      demoAnalysis.risk_level = "Low") ∧
    (50 ≤ demoAnalysis.investment_score ∧ demoAnalysis.investment_score ≤ 69 →
      demoAnalysis.classification = "Hold" ∧
      demoAnalysis.confidence = min (0.60 + ((demoAnalysis.investment_score : ℚ) - 50) * 0.005) 0.95 ∧
      demoAnalysis.risk_level = "Medium") ∧
    (demoAnalysis.investment_score < 50 →
      demoAnalysis.classification = "Watch" ∧
      demoAnalysis.confidence = min (0.50 + ((demoAnalysis.investment_score : ℚ)) * 0.002) 0.95 ∧
      demoAnalysis.risk_level = "High") ∧
    0 ≤ demoAnalysis.confidence ∧ demoAnalysis.confidence ≤ 0.95 :=
  C2_classification_confidence demoRec demoAnalysis rfl

/-- Claim C3: the valuation band is a pure function of the primary
valuation alone: nonpositive values band Unknown, values below 250,000
band Low, values from 250,000 to 750,000 inclusive band Mid, values above
750,000 band High; the four sample points band as expected; and the band
is monotone in the valuation over positive valuations. -/
theorem C3_valuation_band :
    (∀ v : ℚ, v ≤ 0 → valuation_band v = "Unknown") ∧
    (∀ v : ℚ, 0 < v → v < 250000 → valuation_band v = "Low") ∧
    (∀ v : ℚ, 250000 ≤ v → v ≤ 750000 → valuation_band v = "Mid") ∧
    (∀ v : ℚ, 750000 < v → valuation_band v = "High") ∧
    valuation_band 100000 = "Low" ∧ valuation_band 500000 = "Mid" ∧
    valuation_band 900000 = "High" ∧ valuation_band 0 = "Unknown" ∧
    (∀ v1 v2 : ℚ, 0 < v1 → v1 ≤ v2 →
      bandRank (valuation_band v1) ≤ bandRank (valuation_band v2)) := by
  refine ⟨?_, ?_, ?_, ?_, by norm_num [valuation_band], by norm_num [valuation_band],
    by norm_num [valuation_band], by norm_num [valuation_band], ?_⟩
  · intro v hv
    unfold valuation_band
    rw [if_pos hv]
  · intro v h0 h250
    unfold valuation_band
    rw [if_neg (by linarith), if_pos h250]
  · intro v h1 h2
    unfold valuation_band
    rw [if_neg (by linarith), if_neg (by linarith), if_pos h2]
  · intro v hv
    unfold valuation_band
    rw [if_neg (by linarith), if_neg (by linarith), if_neg (by linarith)]
  · intro v1 v2 h1 h12
    unfold valuation_band
    split_ifs <;> simp_all [bandRank] <;> linarith

/-- Witness for C3 at concrete valuations. -/
theorem C3_witness :
    valuation_band 300000 = "Mid" ∧
    bandRank (valuation_band 100000) ≤ bandRank (valuation_band 900000) :=
  ⟨C3_valuation_band.2.2.1 300000 (by norm_num) (by norm_num),
   C3_valuation_band.2.2.2.2.2.2.2.2 100000 900000 (by norm_num) (by norm_num)⟩

/-- Counterexample to claim C4: a zone code of FLOODWAY is classified
Medium, not High, because the Medium patterns are tested first and
FLOODWAY contains the letter A. -/
theorem C4_counterexample :
    flood_risk [("flood_zone", Value.vStr "FLOODWAY")] = "Medium" ∧
    flood_risk [("flood_zone", Value.vStr "FLOODWAY")] ≠ "High" :=
  ⟨rfl, by decide⟩

/-- Claim C4 as amended: for every record whose first present, non-null
flood-zone field is a string with uppercased value z, the zone-code
strategy tests the patterns in order: Low when z contains X or MINIMAL,
else Medium when z contains AE, A, 0.2% or 500, else High when z
contains FLOODWAY, VE or HIGH, else Unknown (an empty z maps to
Unknown); in particular a zone code of FLOODWAY yields Medium (it
contains A), while VE yields High. -/
theorem C4_zone_mapping :
    (∀ (r : Record) (s : String), lookupZone r = some (Value.vStr s) →
      flood_risk r =
        (if strUpper s = "" then "Unknown"
         else if strContains (strUpper s) "X" || strContains (strUpper s) "MINIMAL" then "Low"
         else if strContains (strUpper s) "AE" || strContains (strUpper s) "A" ||
              strContains (strUpper s) "0.2%" || strContains (strUpper s) "500" then "Medium"
         else if strContains (strUpper s) "FLOODWAY" || strContains (strUpper s) "VE" ||
              strContains (strUpper s) "HIGH" then "High"
         else "Unknown")) ∧
    flood_risk [("fema_zone", Value.vStr "FLOODWAY")] = "Medium" ∧
    flood_risk [("fema_zone", Value.vStr "VE")] = "High" := by
  refine ⟨?_, rfl, rfl⟩
  intro r s hz
  unfold flood_risk
  rw [hz]
  rfl

/-- Witness for C4's amended mapping at a concrete record. -/
theorem C4_witness :
    flood_risk [("FloodZone", Value.vStr "AE")] =
      (if strUpper "AE" = "" then "Unknown"
       else if strContains (strUpper "AE") "X" || strContains (strUpper "AE") "MINIMAL" then "Low"
       else if strContains (strUpper "AE") "AE" || strContains (strUpper "AE") "A" ||
            strContains (strUpper "AE") "0.2%" || strContains (strUpper "AE") "500" then "Medium"
       else if strContains (strUpper "AE") "FLOODWAY" || strContains (strUpper "AE") "VE" ||
            strContains (strUpper "AE") "HIGH" then "High"
       else "Unknown") :=
  C4_zone_mapping.1 [("FloodZone", Value.vStr "AE")] "AE" rfl

/-- Counterexample to claim C5: no combination of input signals drives
the returned investment score below 0 (the minimum reachable score is
5). -/
theorem C5_counterexample :
    (∃ (r : Record) (a : Analysis), ruleBasedAnalysis r = some a ∧ a.investment_score < 0) = False := by
  apply eq_false
  rintro ⟨r, a, h, hlt⟩
  have := score_lower_bound h
  omega

/-- Claim C5 as amended: the investment score is returned without any
clamping to [0, 100], but the combined penalties can only drive it down
to 5, never below 0; the unclamped behavior is observable at the high
end, where some inputs yield a score above 100. -/
theorem C5_unclamped_score :
    (∀ (r : Record) (a : Analysis), ruleBasedAnalysis r = some a → 5 ≤ a.investment_score) ∧
    (∃ (r : Record) (a : Analysis), ruleBasedAnalysis r = some a ∧ 100 < a.investment_score) :=
  ⟨fun _ _ h => score_lower_bound h, ⟨demoRec, demoAnalysis, rfl, by decide⟩⟩

/-- Witness for C5's amended lower bound at a concrete record whose
present fields all push the score down. -/
theorem C5_witness : 5 ≤ demoAnalysisLow.investment_score :=
  C5_unclamped_score.1 demoRecLow demoAnalysisLow rfl

/-- Claim C6: batch analysis of an empty sequence of records does not
fail and returns exactly the defined empty-result shape: zero properties
analyzed, classification Unknown, confidence 0.0 and an empty insights
list (with the fixed no-data summary and no breakdown or average). -/
theorem C6_empty_batch :
    analyzeBatch [] =
      some { summary := "No properties provided for analysis."
             classification := "Unknown"
             confidence := 0
             insights := []
             properties_analyzed := 0
             breakdown := none
             average_valuation := none } := rfl

theorem getVal_nil (k : String) : getVal [] k = none := rfl

theorem getVal_cons (k1 : String) (v1 : Value) (rest : Record) (k : String) :
    getVal ((k1, v1) :: rest) k = if k1 = k then some v1 else getVal rest k := rfl

theorem getVal_append_of_none {r : Record} {k : String}
    (h : getVal r k = none) (l : Record) : getVal (r ++ l) k = getVal l k := by
  induction r with
  | nil => rfl
  | cons kv rest ih =>
    obtain ⟨k1, v1⟩ := kv
    rw [getVal_cons] at h
    by_cases hk : k1 = k
    · rw [if_pos hk] at h
      exact absurd h (by simp)
    · rw [if_neg hk] at h
      rw [List.cons_append, getVal_cons, if_neg hk]
      exact ih h

theorem getVal_map_set {r : Record} {k : String} (v : Value)
    (h : hasKey r k = true) :
    getVal (r.map (fun kv => if kv.1 = k then (k, v) else kv)) k = some v := by
  induction r with
  | nil => exact absurd h (by simp [hasKey, getVal])
  | cons kv rest ih =>
    obtain ⟨k1, v1⟩ := kv
    by_cases hk : k1 = k
    · rw [List.map_cons, if_pos hk, getVal_cons, if_pos rfl]
    · rw [List.map_cons, if_neg hk, getVal_cons, if_neg hk]
      refine ih ?_
      unfold hasKey at h ⊢
      rw [getVal_cons, if_neg hk] at h
      exact h

theorem getVal_setKey (r : Record) (k : String) (v : Value) :
    getVal (setKey r k v) k = some v := by
  unfold setKey
  split_ifs with h
  · exact getVal_map_set v h
  · have hnone : getVal r k = none := by
      unfold hasKey at h
      cases hv : getVal r k
      · rfl
      · rw [hv] at h
        exact absurd rfl h
    rw [getVal_append_of_none hnone, getVal_cons, if_pos rfl]

/-- Claim C7: batch signal computation processes every record, catches an
unexpected per-record derivation exception, and replaces that record's
output with the safe-default record (default signal values plus
classification hint Watch), so the batch completes with one output per
input record; records whose derivation succeeds pass through unchanged. -/
theorem C7_batch_error_recovery (env : SigEnv) (properties : List Record) :
    (computeBatchSignals env properties).length = properties.length ∧
    (∀ (i : ℕ) (p : Record), properties.get? i = some p →
      tryComputeCombined env p = none →
      (computeBatchSignals env properties).get? i = some (safeDefaultRecord p)) ∧
    (∀ (i : ℕ) (p out : Record), properties.get? i = some p →
      tryComputeCombined env p = some out →
      (computeBatchSignals env properties).get? i = some out) ∧
    (∀ p : Record, getVal (safeDefaultRecord p) "classification_hint" = some (Value.vStr "Watch")) := by
  refine ⟨by simp [computeBatchSignals], ?_, ?_, fun p => getVal_setKey _ _ _⟩
  · intro i p hp hnone
    unfold computeBatchSignals
    rw [List.get?_map, hp]
    simp [hnone]
  · intro i p out hp hsome
    unfold computeBatchSignals
    rw [List.get?_map, hp]
    simp [hsome]

/-- Witness for C7: a batch holding one empty record (whose signal
derivation raises on `None > 30`) completes with the safe-default
record. -/
theorem C7_witness :
    (computeBatchSignals demoEnv [([] : Record)]).get? 0 = some (safeDefaultRecord []) :=
  (C7_batch_error_recovery demoEnv [[]]).2.1 0 [] rfl rfl

/-- Claim C8: every rule-based investment score lies in [5, 105]; the
record with valuation below 250,000, age between 5 and 20, LLC ownership
and Low flood risk reaches 105, exceeding the nominal 100 upper
bound. -/
theorem C8_score_range :
    (∀ (r : Record) (a : Analysis), ruleBasedAnalysis r = some a →
      5 ≤ a.investment_score ∧ a.investment_score ≤ 105) ∧
    ruleBasedAnalysis demoRec = some demoAnalysis ∧
    demoAnalysis.investment_score = 105 ∧ 100 < demoAnalysis.investment_score := by
  refine ⟨?_, rfl, rfl, by decide⟩
  intro r a h
  obtain ⟨v, n, ol, _, _, _, rfl⟩ := ruleBasedAnalysis_eq_some h
  exact analysisCore_score_bounds r v n ol

/-- Witness for C8's universal bound at a concrete record. -/
theorem C8_witness :
    5 ≤ demoAnalysisNoAge.investment_score ∧ demoAnalysisNoAge.investment_score ≤ 105 :=
  C8_score_range.1 demoRecNoAge demoAnalysisNoAge rfl

theorem strContains_append_left {s pat : String} (t : String)
    (h : strContains s pat = true) : strContains (s ++ t) pat = true := by
  unfold strContains at h ⊢
  refine decide_eq_true ?_
  have h2 := of_decide_eq_true h
  rw [String.data_append]
  exact h2.trans (List.prefix_append _ _).isInfix

theorem strContains_append_right {t pat : String} (s : String)
    (h : strContains t pat = true) : strContains (s ++ t) pat = true := by
  unfold strContains at h ⊢
  refine decide_eq_true ?_
  have h2 := of_decide_eq_true h
  rw [String.data_append]
  exact h2.trans (List.suffix_append _ _).isInfix

theorem strContains_refl (pat : String) : strContains pat pat = true :=
  decide_eq_true (List.infix_refl _)

theorem generateSummary_new_construction (classification : String) (score : ℤ)
    (valuation : ℚ) (ownLower : String) (flood city : Value) :
    strContains (generateSummary classification score valuation 0 ownLower flood city)
      "new construction" = true := by
  unfold generateSummary
  simp only [show ¬ (0 : ℤ) < 0 by omega, if_false]
  apply strContains_append_left
  apply strContains_append_left
  apply strContains_append_left
  apply strContains_append_left
  apply strContains_append_left
  apply strContains_append_left
  apply strContains_append_left
  apply strContains_append_left
  apply strContains_append_left
  apply strContains_append_right
  exact strContains_refl _

/-- Claim C9: when the `property_age` field is absent, null or zero, the
rule-based analysis coerces the age to 0, therefore adds the under-5
new-construction bonus of 10 to the score, and the generated summary
describes the property as new construction. -/
theorem C9_missing_age_bonus (r : Record) (a : Analysis)
    (hage : getVal r "property_age" = none ∨ getVal r "property_age" = some Value.vNull ∨
      getVal r "property_age" = some (Value.vNum 0))
    (h : ruleBasedAnalysis r = some a) :
    a.property_age = 0 ∧
    (∃ v : ℚ, extractValuation r = some v ∧
      a.investment_score = 50 + valAdj v + 10 + ownAdj (extractOwnership r) + floodAdj (extractFlood r)) ∧
    strContains a.summary "new construction" = true := by
  have hage0 : extractAge r = some 0 := by
    unfold extractAge getD
    rcases hage with h1 | h1 | h1 <;> rw [h1] <;> rfl
  obtain ⟨v, n, ol, hv, hn, _, rfl⟩ := ruleBasedAnalysis_eq_some h
  rw [hage0] at hn
  obtain rfl : (0 : ℤ) = n := (Option.some.injEq _ _).mp hn
  refine ⟨rfl, ⟨v, hv, ?_⟩, ?_⟩
  · rw [analysisCore_score]
    norm_num [ageAdj]
  · exact generateSummary_new_construction _ _ _ _ _ _

/-- Witness for C9 at a concrete record with no `property_age` key. -/
theorem C9_witness :
    demoAnalysisNoAge.property_age = 0 ∧
    (∃ v : ℚ, extractValuation demoRecNoAge = some v ∧
      demoAnalysisNoAge.investment_score =
        50 + valAdj v + 10 + ownAdj (extractOwnership demoRecNoAge) + floodAdj (extractFlood demoRecNoAge)) ∧
    strContains demoAnalysisNoAge.summary "new construction" = true :=
  C9_missing_age_bonus demoRecNoAge demoAnalysisNoAge (Or.inl rfl) rfl

theorem filterSignal_nil_schema (s : Record) :
    filterSignal [] s = s.filter (fun kv => decide (kv.1 ∈ allowList)) := rfl

theorem getVal_filterSignal_none (s : Record) (k : String) (hk : k ∉ allowList) :
    getVal (filterSignal [] s) k = none := by
  rw [filterSignal_nil_schema]
  induction s with
  | nil => rfl
  | cons kv rest ih =>
    obtain ⟨k1, v1⟩ := kv
    by_cases hall : k1 ∈ allowList
    · rw [List.filter_cons_of_pos (by simpa using hall), getVal_cons,
        if_neg (fun he : k1 = k => hk (he ▸ hall))]
      exact ih
    · rw [List.filter_cons_of_neg (by simpa using hall)]
      exact ih

theorem filter_map_setEq (s : Record) (k : String) (v : Value) (hk : k ∉ allowList) :
    (s.map (fun kv => if kv.1 = k then (k, v) else kv)).filter
        (fun kv => decide (kv.1 ∈ allowList)) =
      s.filter (fun kv => decide (kv.1 ∈ allowList)) := by
  induction s with
  | nil => rfl
  | cons kv rest ih =>
    obtain ⟨k1, v1⟩ := kv
    by_cases h1 : k1 = k
    · subst h1
      rw [List.map_cons, if_pos rfl, List.filter_cons_of_neg (by simpa using hk),
        List.filter_cons_of_neg (by simpa using hk)]
      exact ih
    · rw [List.map_cons, if_neg h1]
      by_cases hall : k1 ∈ allowList
      · rw [List.filter_cons_of_pos (by simpa using hall),
          List.filter_cons_of_pos (by simpa using hall), ih]
      · rw [List.filter_cons_of_neg (by simpa using hall),
          List.filter_cons_of_neg (by simpa using hall)]
        exact ih

theorem filterSignal_setKey (s : Record) (k : String) (v : Value) (hk : k ∉ allowList) :
    filterSignal [] (setKey s k v) = filterSignal [] s := by
  rw [filterSignal_nil_schema, filterSignal_nil_schema]
  unfold setKey
  split_ifs with h
  · exact filter_map_setEq s k v hk
  · rw [List.filter_append, List.filter_cons_of_neg (by simpa using hk)]
    simp

/-- Claim C10: with no input schema configured, every signal dictionary
in the payload sent to the ScoutGPT oracle contains only keys of the
fixed allow-set; non-allow-listed fields are excluded from the shaped
signal; and changing the value of a non-allow-listed field in the batch
does not change the shaped payload. -/
theorem C10_payload_allowlist :
    (∀ (ctx : Option Record) (batch : Option (List Record)) (sig : Record),
      sig ∈ (scoutPayload [] ctx batch).signals → ∀ kv ∈ sig, kv.1 ∈ allowList) ∧
    (∀ (s : Record) (k : String), k ∉ allowList → getVal (filterSignal [] s) k = none) ∧
    (∀ (ctx : Option Record) (batch : List Record) (k : String) (v : Value), k ∉ allowList →
      scoutPayload [] ctx (some (batch.map (fun s => setKey s k v))) =
        scoutPayload [] ctx (some batch)) := by
  refine ⟨?_, getVal_filterSignal_none, ?_⟩
  · intro ctx batch sig hsig kv hkv
    unfold scoutPayload at hsig
    obtain ⟨s, _, rfl⟩ := List.mem_map.mp hsig
    rw [filterSignal_nil_schema] at hkv
    exact of_decide_eq_true (List.mem_filter.mp hkv).2
  · intro ctx batch k v hk
    unfold scoutPayload
    simp only [Option.getD_some, List.map_map]
    refine congrArg _ ?_
    exact List.map_congr_left (fun s _ => filterSignal_setKey s k v hk)

/-- Witness for C10 at a concrete record holding a non-allow-listed
field. -/
theorem C10_witness :
    getVal (filterSignal [] [("attom_id", Value.vStr "A1"), ("secret_field", Value.vStr "s")])
      "secret_field" = none :=
  C10_payload_allowlist.2.1 [("attom_id", Value.vStr "A1"), ("secret_field", Value.vStr "s")]
    "secret_field" (by decide)

end ScoutIQ
